import Mathlib

/-!
Verification of the BarkingMonitor real-time capture-to-event pipeline.

The definitions below are a shallow embedding of the Python source:
timestamps and configuration durations (`float` seconds in the source)
become rationals, the bounded `queue.Queue` becomes a list with explicit
capacity, and the per-class detection state machine of
`AudioEngine._handle_detection` / `_register_detection` /
`_maybe_finalize_event` / `_finalize_active_event` becomes explicit
state-passing functions.
-/

namespace BarkingMonitor

/-- `AppConfig` from `config.py`, with the same field names and default
values (floats embedded as rationals). -/
structure AppConfig where
  sample_rate : Nat := 16000
  channels : Nat := 1
  window_seconds : ℚ := 96/100
  hop_seconds : ℚ := 48/100
  detection_threshold : ℚ := 65/100
  consecutive_required : Nat := 2
  cooldown_seconds : ℚ := 2
  merge_gap_seconds : ℚ := 2
  auto_start : Bool := false
  enable_thunder_monitoring : Bool := true
  thunder_detection_threshold : ℚ := 55/100
  thunder_consecutive_required : Nat := 2
  thunder_cooldown_seconds : ℚ := 2
deriving DecidableEq, Repr

/-- `DEFAULT_CONFIG = AppConfig()` from `config.py`. -/
def DEFAULT_CONFIG : AppConfig := {}

/-- The `_active_event` / `_active_thunder_event` dict of `audio_engine.py`:
`{"start": ts, "last_detection": ts, "confidences": [...]}`. -/
structure OpenSegment where
  start : ℚ
  last_detection : ℚ
  confidences : List ℚ
deriving DecidableEq, Repr

/-- `BarkEvent` dataclass from `database.py` (timestamps kept as rationals
rather than ISO strings; `duration_sec` and `avg_confidence` as in the
source). -/
structure BarkEvent where
  start_ts : ℚ
  end_ts : ℚ
  duration_sec : ℚ
  avg_confidence : ℚ
deriving DecidableEq, Repr

/-- `ThunderEvent` dataclass from `database.py` (same shape as `BarkEvent`,
duplicated as in the source). -/
structure ThunderEvent where
  start_ts : ℚ
  end_ts : ℚ
  duration_sec : ℚ
  avg_confidence : ℚ
deriving DecidableEq, Repr

/-- Body of `AudioEngine._finalize_active_event` for a present segment:
`duration = max((end - start).total_seconds(), window_seconds)` and
`avg_conf = np.mean(confidences)` (sum divided by length). -/
def finalizeSegment (cfg : AppConfig) (seg : OpenSegment) : BarkEvent :=
  { start_ts := seg.start
    end_ts := seg.last_detection
    duration_sec := max (seg.last_detection - seg.start) cfg.window_seconds
    avg_confidence := seg.confidences.sum / seg.confidences.length }

/-- Body of `AudioEngine._finalize_active_thunder_event` for a present
segment (verbatim duplicate of the bark version in the source). -/
def finalizeThunderSegment (cfg : AppConfig) (seg : OpenSegment) : ThunderEvent :=
  { start_ts := seg.start
    end_ts := seg.last_detection
    duration_sec := max (seg.last_detection - seg.start) cfg.window_seconds
    avg_confidence := seg.confidences.sum / seg.confidences.length }

/-- `AudioEngine._finalize_active_event` including its `None` guard: clears
the segment and returns the emitted event, if any. -/
def finalizeActive (cfg : AppConfig) (active : Option OpenSegment) :
    Option OpenSegment × Option BarkEvent :=
  match active with
  | none => (none, none)
  | some seg => (none, some (finalizeSegment cfg seg))

/-- `AudioEngine._finalize_active_thunder_event` including its `None`
guard. -/
def finalizeActiveThunder (cfg : AppConfig) (active : Option OpenSegment) :
    Option OpenSegment × Option ThunderEvent :=
  match active with
  | none => (none, none)
  | some seg => (none, some (finalizeThunderSegment cfg seg))

/-- `AudioEngine._register_detection`: extend the open segment if the pulse
is within `merge_gap_seconds` of its `last_detection`; otherwise finalize
any open segment and open a fresh one `{start: ts, last_detection: ts,
confidences: [conf]}`. Returns the new segment state and the event
emitted by the inner finalization, if any. -/
def registerDetection (cfg : AppConfig) (active : Option OpenSegment)
    (ts conf : ℚ) : Option OpenSegment × Option BarkEvent :=
  match active with
  | some seg =>
      if ts - seg.last_detection ≤ cfg.merge_gap_seconds then
        (some { seg with last_detection := ts,
                         confidences := seg.confidences ++ [conf] }, none)
      else
        (some { start := ts, last_detection := ts, confidences := [conf] },
         some (finalizeSegment cfg seg))
  | none =>
      (some { start := ts, last_detection := ts, confidences := [conf] }, none)

/-- `AudioEngine._maybe_finalize_event`: finalize the open segment when
`now - last_detection > merge_gap_seconds`. -/
def maybeFinalizeEvent (cfg : AppConfig) (active : Option OpenSegment)
    (now : ℚ) : Option OpenSegment × Option BarkEvent :=
  match active with
  | none => (none, none)
  | some seg =>
      if now - seg.last_detection > cfg.merge_gap_seconds then
        (none, some (finalizeSegment cfg seg))
      else
        (some seg, none)

/-- Per-class debounce + segment state of `AudioEngine`:
`_consecutive`, `_cooldown_until`, `_active_event`. -/
structure ClassState where
  consecutive : Nat
  cooldown_until : ℚ
  active : Option OpenSegment
deriving DecidableEq, Repr

/-- Outcome of one window tick of `AudioEngine._handle_detection`: the new
per-class state, the confirmed detection pulse (timestamp, confidence)
if one was emitted, and the finalized events emitted during the tick. -/
structure TickResult where
  state : ClassState
  pulse : Option (ℚ × ℚ)
  events : List BarkEvent
deriving DecidableEq, Repr

/-- `AudioEngine._handle_detection`: cooldown check first (early return
that resets `_consecutive`), then consecutive-hit accumulation with
pulse registration, then the `_maybe_finalize_event` gap check. -/
def handleDetection (cfg : AppConfig) (st : ClassState) (now conf : ℚ)
    (is_bark : Bool) : TickResult :=
  if now < st.cooldown_until then
    { state := { st with consecutive := 0 }, pulse := none, events := [] }
  else
    let step :=
      if is_bark then
        let c := st.consecutive + 1
        if cfg.consecutive_required ≤ c then
          let reg := registerDetection cfg st.active now conf
          (ClassState.mk 0 (now + cfg.cooldown_seconds) reg.1,
           some (now, conf), reg.2.toList)
        else
          ({ st with consecutive := c }, none, ([] : List BarkEvent))
      else
        ({ st with consecutive := 0 }, none, ([] : List BarkEvent))
    let fin := maybeFinalizeEvent cfg step.1.active now
    { state := { step.1 with active := fin.1 },
      pulse := step.2.1,
      events := step.2.2 ++ fin.2.toList }

/-- The pair of per-class open segments held by the engine
(`_active_event` and `_active_thunder_event`). -/
structure EngineSegments where
  bark : Option OpenSegment
  thunder : Option OpenSegment
deriving DecidableEq, Repr

/-- The segment-flush part of `AudioEngine.stop`: it calls
`_finalize_active_event()` and `_finalize_active_thunder_event()`
unconditionally — no gap or time check — and returns the events they
emit. -/
def stopFlush (cfg : AppConfig) (s : EngineSegments) :
    EngineSegments × Option BarkEvent × Option ThunderEvent :=
  let b := finalizeActive cfg s.bark
  let t := finalizeActiveThunder cfg s.thunder
  (⟨b.1, t.1⟩, b.2, t.2)

/-- `queue.Queue.put_nowait` as used by `AudioEngine._audio_callback`:
append when below capacity, otherwise keep the queue and signal a drop
(the caught `queue.Full` / logged warning). -/
def putNowait (cap : Nat) (q : List α) (x : α) : List α × Bool :=
  if q.length < cap then (q ++ [x], false) else (q, true)

/-- A run of `_audio_callback` invocations with no consumer draining:
enqueue each chunk in order, counting drop signals. -/
def enqueueAll (cap : Nat) (q : List α) : List α → List α × Nat
  | [] => (q, 0)
  | x :: rest =>
      let p := putNowait cap q x
      let r := enqueueAll cap p.1 rest
      (r.1, (if p.2 then 1 else 0) + r.2)

/-- The fill-counter update of `AudioEngine._process_worker`:
`filled = min(window_samples, filled + hop_samples)`. -/
def stepFill (W H filled : Nat) : Nat := min W (filled + H)

/-- Fill counter after `k` hops starting from an empty buffer
(`filled = 0`). -/
def fillAfter (W H : Nat) : Nat → Nat
  | 0 => 0
  | k + 1 => stepFill W H (fillAfter W H k)

/-- Whether hop number `k` (1-based) triggers a classification: in
`_process_worker` the loop `continue`s while `filled < window_samples`
after inserting the hop, and classifies exactly once otherwise. -/
def hopClassifies (W H k : Nat) : Bool := W ≤ fillAfter W H k

/-- The per-day counter state of `RuntimeStats` touched by
`AudioEngine._check_day_change`: `current_day`, `today_count`,
`today_thunder_count`. -/
structure DayState where
  current_day : String
  today_count : Nat
  today_thunder_count : Nat
deriving DecidableEq, Repr

/-- `AudioEngine._check_day_change`, with the Event Sink's
`count_for_day` / `count_thunder_for_day` passed in as functions of the
day: on a day change, re-seed both counters from the sink; otherwise
leave the state untouched. -/
def checkDayChange (count_for_day count_thunder_for_day : String → Nat)
    (today : String) (st : DayState) : DayState :=
  if today ≠ st.current_day then
    { current_day := today
      today_count := count_for_day today
      today_thunder_count := count_thunder_for_day today }
  else st

/-- A stored `config.json` as a partial dictionary: each recognized key
either present with a value or absent. -/
structure StoredConfig where
  sample_rate : Option Nat
  channels : Option Nat
  window_seconds : Option ℚ
  hop_seconds : Option ℚ
  detection_threshold : Option ℚ
  consecutive_required : Option Nat
  cooldown_seconds : Option ℚ
  merge_gap_seconds : Option ℚ
  auto_start : Option Bool
  enable_thunder_monitoring : Option Bool
  thunder_detection_threshold : Option ℚ
  thunder_consecutive_required : Option Nat
  thunder_cooldown_seconds : Option ℚ
deriving DecidableEq, Repr

/-- `save_config` from `config.py`: `json.dumps(asdict(config))` writes
every field of the config to the file. -/
def save_config (c : AppConfig) : StoredConfig :=
  { sample_rate := some c.sample_rate
    channels := some c.channels
    window_seconds := some c.window_seconds
    hop_seconds := some c.hop_seconds
    detection_threshold := some c.detection_threshold
    consecutive_required := some c.consecutive_required
    cooldown_seconds := some c.cooldown_seconds
    merge_gap_seconds := some c.merge_gap_seconds
    auto_start := some c.auto_start
    enable_thunder_monitoring := some c.enable_thunder_monitoring
    thunder_detection_threshold := some c.thunder_detection_threshold
    thunder_consecutive_required := some c.thunder_consecutive_required
    thunder_cooldown_seconds := some c.thunder_cooldown_seconds }

/-- `base = asdict(DEFAULT_CONFIG); base.update(data); AppConfig(**base)`
from `load_config`: every key present in `data` overrides the default,
every absent key keeps the default. -/
def dictUpdate (base : AppConfig) (data : StoredConfig) : AppConfig :=
  { sample_rate := data.sample_rate.getD base.sample_rate
    channels := data.channels.getD base.channels
    window_seconds := data.window_seconds.getD base.window_seconds
    hop_seconds := data.hop_seconds.getD base.hop_seconds
    detection_threshold := data.detection_threshold.getD base.detection_threshold
    consecutive_required := data.consecutive_required.getD base.consecutive_required
    cooldown_seconds := data.cooldown_seconds.getD base.cooldown_seconds
    merge_gap_seconds := data.merge_gap_seconds.getD base.merge_gap_seconds
    auto_start := data.auto_start.getD base.auto_start
    enable_thunder_monitoring := data.enable_thunder_monitoring.getD base.enable_thunder_monitoring
    thunder_detection_threshold := data.thunder_detection_threshold.getD base.thunder_detection_threshold
    thunder_consecutive_required := data.thunder_consecutive_required.getD base.thunder_consecutive_required
    thunder_cooldown_seconds := data.thunder_cooldown_seconds.getD base.thunder_cooldown_seconds }

/-- `load_config` from `config.py`: when no file exists the defaults are
returned (and saved); otherwise the stored keys are merged over the
defaults. -/
def load_config (stored : Option StoredConfig) : AppConfig :=
  match stored with
  | none => DEFAULT_CONFIG
  | some data => dictUpdate DEFAULT_CONFIG data

/-- A stored file with every key absent (missing-keys case for
`load_config`). -/
def emptyStored : StoredConfig :=
  ⟨none, none, none, none, none, none, none, none, none, none, none, none, none⟩

/-! ### Helper lemmas -/

/-- The fill counter after `k` hops is `min W (k * H)`. -/
theorem fillAfter_eq (W H : Nat) : ∀ k, fillAfter W H k = min W (k * H) := by
  intro k
  induction k with
  | zero => simp [fillAfter]
  | succ k ih =>
      rw [fillAfter, ih, stepFill, Nat.succ_mul]
      omega

/-- `⌈W / H⌉ ≤ k ↔ W ≤ k * H` for positive `H`, with the ceiling written
as `(W + H - 1) / H` in natural-number division. -/
theorem ceil_le_iff (W H : Nat) (hH : 0 < H) (k : Nat) :
    (W + H - 1) / H ≤ k ↔ W ≤ k * H := by
  rw [Nat.div_le_iff_le_mul_add_pred hH, Nat.mul_comm H k]
  omega

/-- Hop `k` triggers a classification exactly when `k` has reached the
ceiling `⌈window_samples / hop_samples⌉`. -/
theorem hopClassifies_iff (W H : Nat) (hH : 0 < H) (k : Nat) :
    hopClassifies W H k = true ↔ (W + H - 1) / H ≤ k := by
  rw [hopClassifies, fillAfter_eq, ceil_le_iff W H hH k]
  simp

/-- Unfolding of `handleDetection` on a cooldown tick. -/
theorem handleDetection_cooldown (cfg : AppConfig) (st : ClassState)
    (now conf : ℚ) (b : Bool) (h : now < st.cooldown_until) :
    handleDetection cfg st now conf b =
      { state := { st with consecutive := 0 }, pulse := none, events := [] } := by
  simp [handleDetection, h]

/-- Unfolding of `handleDetection` on a negative-classified window with no
active cooldown. -/
theorem handleDetection_negWindow (cfg : AppConfig) (st : ClassState)
    (now conf : ℚ) (h : ¬ now < st.cooldown_until) :
    handleDetection cfg st now conf false =
      { state := { st with consecutive := 0,
                           active := (maybeFinalizeEvent cfg st.active now).1 }
        pulse := none
        events := (maybeFinalizeEvent cfg st.active now).2.toList } := by
  simp [handleDetection, h]

/-- Unfolding of `handleDetection` on a positive window that does not yet
reach `consecutive_required`. -/
theorem handleDetection_posAccum (cfg : AppConfig) (st : ClassState)
    (now conf : ℚ) (h : ¬ now < st.cooldown_until)
    (h2 : ¬ cfg.consecutive_required ≤ st.consecutive + 1) :
    handleDetection cfg st now conf true =
      { state := { st with consecutive := st.consecutive + 1,
                           active := (maybeFinalizeEvent cfg st.active now).1 }
        pulse := none
        events := (maybeFinalizeEvent cfg st.active now).2.toList } := by
  simp [handleDetection, h, h2]

/-- Unfolding of `handleDetection` on a positive window that reaches
`consecutive_required`: a confirmed pulse is emitted, the hit counter is
reset and the cooldown is armed. -/
theorem handleDetection_posFire (cfg : AppConfig) (st : ClassState)
    (now conf : ℚ) (h : ¬ now < st.cooldown_until)
    (h2 : cfg.consecutive_required ≤ st.consecutive + 1) :
    handleDetection cfg st now conf true =
      { state := ⟨0, now + cfg.cooldown_seconds,
          (maybeFinalizeEvent cfg (registerDetection cfg st.active now conf).1 now).1⟩
        pulse := some (now, conf)
        events := (registerDetection cfg st.active now conf).2.toList ++
          (maybeFinalizeEvent cfg (registerDetection cfg st.active now conf).1 now).2.toList } := by
  simp [handleDetection, h, h2]

/-- `registerDetection` always leaves a segment whose `last_detection` is
the pulse timestamp. -/
theorem registerDetection_last (cfg : AppConfig) (active : Option OpenSegment)
    (ts conf : ℚ) :
    ∃ seg, (registerDetection cfg active ts conf).1 = some seg ∧
      seg.last_detection = ts := by
  cases active with
  | none => exact ⟨_, rfl, rfl⟩
  | some seg =>
      by_cases h : ts - seg.last_detection ≤ cfg.merge_gap_seconds
      · refine ⟨⟨seg.start, ts, seg.confidences ++ [conf]⟩, ?_, rfl⟩
        simp [registerDetection, h]
      · refine ⟨⟨ts, ts, [conf]⟩, ?_, rfl⟩
        simp [registerDetection, h]

/-- Immediately after a pulse at `now`, the gap check cannot fire when the
merge gap is nonnegative. -/
theorem maybeFinalize_after_register (cfg : AppConfig)
    (active : Option OpenSegment) (ts conf : ℚ)
    (hgap : 0 ≤ cfg.merge_gap_seconds) :
    maybeFinalizeEvent cfg (registerDetection cfg active ts conf).1 ts =
      ((registerDetection cfg active ts conf).1, none) := by
  obtain ⟨seg, hseg, hlast⟩ := registerDetection_last cfg active ts conf
  rw [hseg, maybeFinalizeEvent, hlast]
  simp [hgap, not_lt.mpr]

/-! ### Claims -/

/-- Claim C3: starting from an empty window buffer with `W = window_samples`
and `H = hop_samples`, the first `⌈W / H⌉ − 1` hops produce zero
classification opportunities, the hop numbered `⌈W / H⌉` produces one, and
every later hop also produces one. -/
theorem C3_cold_start (W H : Nat) (hH : 0 < H) :
    (∀ k, 1 ≤ k → k < (W + H - 1) / H → hopClassifies W H k = false) ∧
    hopClassifies W H ((W + H - 1) / H) = true ∧
    (∀ k, (W + H - 1) / H ≤ k → hopClassifies W H k = true) := by
  refine ⟨fun k _ hk => ?_, (hopClassifies_iff W H hH _).mpr le_rfl,
    fun k hk => (hopClassifies_iff W H hH k).mpr hk⟩
  rw [← Bool.not_eq_true]
  rw [hopClassifies_iff W H hH k]
  omega

/-- Witness for C3 at `W = 3`, `H = 2` (so `⌈W/H⌉ = 2`): hop 1 produces no
classification, hops 2 and 5 each produce one. -/
theorem C3_cold_start_witness :
    hopClassifies 3 2 1 = false ∧ hopClassifies 3 2 2 = true ∧
    hopClassifies 3 2 5 = true := by
  have h := C3_cold_start 3 2 (by decide)
  exact ⟨h.1 1 (by decide) (by decide), h.2.1, h.2.2 5 (by decide)⟩

/-- Claim C4: with `consecutive_required = 2`, no active cooldown and the
hit counter at 0, a positive window followed by a negative window emits no
confirmed pulse on either tick, and `consecutive_hits` is 0 after the
negative window. -/
theorem C4_debounce_floor (cfg : AppConfig) (st : ClassState)
    (now1 now2 c1 c2 : ℚ) (hreq : cfg.consecutive_required = 2)
    (hcons : st.consecutive = 0) (hcd1 : ¬ now1 < st.cooldown_until)
    (hcd2 : ¬ now2 < st.cooldown_until) :
    (handleDetection cfg st now1 c1 true).pulse = none ∧
    (handleDetection cfg (handleDetection cfg st now1 c1 true).state
      now2 c2 false).pulse = none ∧
    (handleDetection cfg (handleDetection cfg st now1 c1 true).state
      now2 c2 false).state.consecutive = 0 := by
  have h2 : ¬ cfg.consecutive_required ≤ st.consecutive + 1 := by
    rw [hreq, hcons]
    omega
  rw [handleDetection_posAccum cfg st now1 c1 hcd1 h2]
  dsimp only
  rw [handleDetection_negWindow cfg
    ⟨st.consecutive + 1, st.cooldown_until, (maybeFinalizeEvent cfg st.active now1).1⟩
    now2 c2 hcd2]
  exact ⟨rfl, rfl, rfl⟩

/-- Witness for C4 at the default configuration, fresh state and ticks at
times 1 and 2. -/
theorem C4_debounce_floor_witness :
    (handleDetection DEFAULT_CONFIG ⟨0, 0, none⟩ 1 (9/10) true).pulse = none ∧
    (handleDetection DEFAULT_CONFIG
      (handleDetection DEFAULT_CONFIG ⟨0, 0, none⟩ 1 (9/10) true).state
      2 (1/10) false).pulse = none ∧
    (handleDetection DEFAULT_CONFIG
      (handleDetection DEFAULT_CONFIG ⟨0, 0, none⟩ 1 (9/10) true).state
      2 (1/10) false).state.consecutive = 0 :=
  C4_debounce_floor DEFAULT_CONFIG ⟨0, 0, none⟩ 1 2 (9/10) (1/10) rfl rfl
    (by norm_num) (by norm_num)

/-- Claim C9: when the observed calendar day differs from the tracked day,
`_check_day_change` sets the tracked day to the new day and re-seeds both
daily counters from the Event Sink's stored counts for the new day; when
the day is unchanged, the state is left untouched. -/
theorem C9_day_rollover (count_for_day count_thunder_for_day : String → Nat)
    (today : String) (st : DayState) :
    (today ≠ st.current_day →
      checkDayChange count_for_day count_thunder_for_day today st =
        ⟨today, count_for_day today, count_thunder_for_day today⟩) ∧
    (today = st.current_day →
      checkDayChange count_for_day count_thunder_for_day today st = st) := by
  constructor <;> intro h <;> simp [checkDayChange, h]

/-- Witness for C9: a sink holding 7 bark and 3 thunder events for every
day, a day change from 2025-01-01 to 2025-01-02, and an unchanged day. -/
theorem C9_day_rollover_witness :
    checkDayChange (fun _ => 7) (fun _ => 3) "2025-01-02"
      ⟨"2025-01-01", 5, 6⟩ = ⟨"2025-01-02", 7, 3⟩ ∧
    checkDayChange (fun _ => 7) (fun _ => 3) "2025-01-01"
      ⟨"2025-01-01", 5, 6⟩ = ⟨"2025-01-01", 5, 6⟩ :=
  ⟨(C9_day_rollover _ _ _ _).1 (by decide), (C9_day_rollover _ _ _ _).2 rfl⟩

/-- Claim C10: `save_config` followed by `load_config` returns the saved
`AppConfig` unchanged; a stored file with all keys missing loads as the
defaults, and a missing file also yields the defaults — `load_config`
always produces a complete `AppConfig`. -/
theorem C10_config_roundtrip :
    (∀ c : AppConfig, load_config (some (save_config c)) = c) ∧
    load_config (some emptyStored) = DEFAULT_CONFIG ∧
    load_config none = DEFAULT_CONFIG :=
  ⟨fun _ => rfl, rfl, rfl⟩

/-- Claim C5: after a confirmed pulse at `t0` with `cooldown_seconds = 2`
and `consecutive_required = 2`, a positive window at `t0 + 1` produces no
second pulse and resets the hit counter, while positive windows at
`t0 + 2.1` and `t0 + 2.2` accumulate again and confirm a second pulse. -/
theorem C5_cooldown_suppression (cfg : AppConfig) (st : ClassState)
    (t0 c0 c1 c2 c3 : ℚ) (hcool : cfg.cooldown_seconds = 2)
    (hreq : cfg.consecutive_required = 2) (hcons : st.consecutive = 1)
    (hcd : ¬ t0 < st.cooldown_until) :
    (handleDetection cfg st t0 c0 true).pulse = some (t0, c0) ∧
    (handleDetection cfg st t0 c0 true).state.cooldown_until = t0 + 2 ∧
    (handleDetection cfg (handleDetection cfg st t0 c0 true).state
      (t0 + 1) c1 true).pulse = none ∧
    (handleDetection cfg (handleDetection cfg st t0 c0 true).state
      (t0 + 1) c1 true).state.consecutive = 0 ∧
    (handleDetection cfg (handleDetection cfg
      (handleDetection cfg st t0 c0 true).state (t0 + 1) c1 true).state
      (t0 + 21/10) c2 true).pulse = none ∧
    (handleDetection cfg (handleDetection cfg
      (handleDetection cfg st t0 c0 true).state (t0 + 1) c1 true).state
      (t0 + 21/10) c2 true).state.consecutive = 1 ∧
    (handleDetection cfg (handleDetection cfg (handleDetection cfg
      (handleDetection cfg st t0 c0 true).state (t0 + 1) c1 true).state
      (t0 + 21/10) c2 true).state (t0 + 22/10) c3 true).pulse =
      some (t0 + 22/10, c3) := by
  have hfire : cfg.consecutive_required ≤ st.consecutive + 1 := by
    rw [hreq, hcons]
  have e0 := handleDetection_posFire cfg st t0 c0 hcd hfire
  rw [hcool] at e0
  rw [e0]
  dsimp only
  generalize (maybeFinalizeEvent cfg
    (registerDetection cfg st.active t0 c0).1 t0).1 = X
  rw [handleDetection_cooldown cfg ⟨0, t0 + 2, X⟩ (t0 + 1) c1 true
    (by simp)]
  dsimp only
  rw [handleDetection_posAccum cfg ⟨0, t0 + 2, X⟩ (t0 + 21/10) c2
    (by simp; norm_num) (by rw [hreq]; simp)]
  dsimp only
  generalize (maybeFinalizeEvent cfg X (t0 + 21/10)).1 = Y
  rw [handleDetection_posFire cfg ⟨0 + 1, t0 + 2, Y⟩ (t0 + 22/10) c3
    (by simp; norm_num) (by rw [hreq])]
  exact ⟨rfl, rfl, rfl, rfl, rfl, rfl, rfl⟩

/-- Witness for C5 at the default configuration, a state with one prior
hit and no cooldown, and a pulse fired at `t0 = 0`. -/
theorem C5_cooldown_suppression_witness :
    (handleDetection DEFAULT_CONFIG ⟨1, 0, none⟩ 0 (9/10) true).pulse =
      some (0, 9/10) ∧
    (handleDetection DEFAULT_CONFIG ⟨1, 0, none⟩ 0 (9/10)
      true).state.cooldown_until = 0 + 2 ∧
    (handleDetection DEFAULT_CONFIG
      (handleDetection DEFAULT_CONFIG ⟨1, 0, none⟩ 0 (9/10) true).state
      (0 + 1) (8/10) true).pulse = none ∧
    (handleDetection DEFAULT_CONFIG
      (handleDetection DEFAULT_CONFIG ⟨1, 0, none⟩ 0 (9/10) true).state
      (0 + 1) (8/10) true).state.consecutive = 0 ∧
    (handleDetection DEFAULT_CONFIG (handleDetection DEFAULT_CONFIG
      (handleDetection DEFAULT_CONFIG ⟨1, 0, none⟩ 0 (9/10) true).state
      (0 + 1) (8/10) true).state (0 + 21/10) (7/10) true).pulse = none ∧
    (handleDetection DEFAULT_CONFIG (handleDetection DEFAULT_CONFIG
      (handleDetection DEFAULT_CONFIG ⟨1, 0, none⟩ 0 (9/10) true).state
      (0 + 1) (8/10) true).state (0 + 21/10) (7/10)
      true).state.consecutive = 1 ∧
    (handleDetection DEFAULT_CONFIG (handleDetection DEFAULT_CONFIG
      (handleDetection DEFAULT_CONFIG
      (handleDetection DEFAULT_CONFIG ⟨1, 0, none⟩ 0 (9/10) true).state
      (0 + 1) (8/10) true).state (0 + 21/10) (7/10) true).state
      (0 + 22/10) (6/10) true).pulse = some (0 + 22/10, 6/10) :=
  C5_cooldown_suppression DEFAULT_CONFIG ⟨1, 0, none⟩ 0 (9/10) (8/10)
    (7/10) (6/10) rfl rfl rfl (by norm_num)

/-- Counterexample to claim C1 as stated: with the default configuration
(`merge_gap_seconds = 2`), a state in cooldown (`cooldown_until = 10`,
tick at `now = 5`) holding an open segment whose gap is already exceeded
(`now − last_detection = 5 > 2`), the tick emits no finalized event and
leaves the segment open — the segment-gap check is not performed on a
cooldown tick. -/
theorem C1_counterexample :
    ((5 : ℚ) < (ClassState.mk 0 10 (some ⟨0, 0, [1]⟩)).cooldown_until) ∧
    ((5 : ℚ) - (0 : ℚ) > DEFAULT_CONFIG.merge_gap_seconds) ∧
    (handleDetection DEFAULT_CONFIG ⟨0, 10, some ⟨0, 0, [1]⟩⟩ 5 (1/2)
      false).events = [] ∧
    (handleDetection DEFAULT_CONFIG ⟨0, 10, some ⟨0, 0, [1]⟩⟩ 5 (1/2)
      false).state.active = some ⟨0, 0, [1]⟩ := by
  refine ⟨by norm_num, by norm_num [DEFAULT_CONFIG], ?_, ?_⟩ <;>
    rw [handleDetection_cooldown DEFAULT_CONFIG ⟨0, 10, some ⟨0, 0, [1]⟩⟩
      5 (1/2) false (by norm_num)]

/-- Claim C1 (amended): on a cooldown tick (`now < cooldown_until`) the
per-class handler resets `consecutive_hits` to 0, emits no pulse and no
event, and leaves the open segment untouched — the segment-gap check is
skipped on that tick; an over-gap segment is only finalized on a later
tick that is not in cooldown. -/
theorem C1_cooldown_tick (cfg : AppConfig) (st : ClassState)
    (now conf : ℚ) (b : Bool) (h : now < st.cooldown_until) :
    (handleDetection cfg st now conf b).state.consecutive = 0 ∧
    (handleDetection cfg st now conf b).pulse = none ∧
    (handleDetection cfg st now conf b).events = [] ∧
    (handleDetection cfg st now conf b).state.active = st.active ∧
    (∀ now2 conf2 seg, ¬ now2 < st.cooldown_until → st.active = some seg →
      now2 - seg.last_detection > cfg.merge_gap_seconds →
      (handleDetection cfg (handleDetection cfg st now conf b).state
        now2 conf2 false).events = [finalizeSegment cfg seg] ∧
      (handleDetection cfg (handleDetection cfg st now conf b).state
        now2 conf2 false).state.active = none) := by
  rw [handleDetection_cooldown cfg st now conf b h]
  refine ⟨rfl, rfl, rfl, rfl, fun now2 conf2 seg hcd2 hseg hgap => ?_⟩
  dsimp only
  rw [handleDetection_negWindow cfg ⟨0, st.cooldown_until, st.active⟩
    now2 conf2 hcd2]
  dsimp only
  rw [hseg, maybeFinalizeEvent]
  simp [hgap]

/-- Witness for the amended C1: default configuration, cooldown until 10,
tick at 5 with an open segment last detected at 0; a later tick at 12
(out of cooldown, gap 12 > 2) finalizes the segment. -/
theorem C1_cooldown_tick_witness :
    (handleDetection DEFAULT_CONFIG ⟨3, 10, some ⟨0, 0, [1]⟩⟩ 5 (1/2)
      false).state.consecutive = 0 ∧
    (handleDetection DEFAULT_CONFIG ⟨3, 10, some ⟨0, 0, [1]⟩⟩ 5 (1/2)
      false).pulse = none ∧
    (handleDetection DEFAULT_CONFIG ⟨3, 10, some ⟨0, 0, [1]⟩⟩ 5 (1/2)
      false).events = [] ∧
    (handleDetection DEFAULT_CONFIG ⟨3, 10, some ⟨0, 0, [1]⟩⟩ 5 (1/2)
      false).state.active = some ⟨0, 0, [1]⟩ ∧
    (handleDetection DEFAULT_CONFIG
      (handleDetection DEFAULT_CONFIG ⟨3, 10, some ⟨0, 0, [1]⟩⟩ 5 (1/2)
        false).state 12 (1/4) false).events =
      [finalizeSegment DEFAULT_CONFIG ⟨0, 0, [1]⟩] ∧
    (handleDetection DEFAULT_CONFIG
      (handleDetection DEFAULT_CONFIG ⟨3, 10, some ⟨0, 0, [1]⟩⟩ 5 (1/2)
        false).state 12 (1/4) false).state.active = none := by
  have h := C1_cooldown_tick DEFAULT_CONFIG ⟨3, 10, some ⟨0, 0, [1]⟩⟩ 5
    (1/2) false (by norm_num)
  have h5 := h.2.2.2.2 12 (1/4) ⟨0, 0, [1]⟩ (by norm_num) rfl
    (by norm_num [DEFAULT_CONFIG])
  exact ⟨h.1, h.2.1, h.2.2.1, h.2.2.2.1, h5.1, h5.2⟩

/-- When the queue already sits at capacity, every further enqueue is
dropped and the queue is unchanged. -/
theorem enqueueAll_full (cap : Nat) (q : List α) (hq : q.length = cap) :
    ∀ xs : List α, enqueueAll cap q xs = (q, xs.length) := by
  intro xs
  induction xs with
  | nil => rfl
  | cons x rest ih =>
      have hfull : ¬ q.length < cap := by omega
      simp [enqueueAll, putNowait, hfull, ih, Nat.add_comm]

/-- Closed form of a drain-free enqueue run starting below capacity: the
first `cap − q.length` chunks are appended, the rest are dropped. -/
theorem enqueueAll_eq (cap : Nat) (xs : List α) :
    ∀ q : List α, q.length ≤ cap →
      enqueueAll cap q xs =
        (q ++ xs.take (cap - q.length), xs.length - (cap - q.length)) := by
  induction xs with
  | nil => intro q hq; simp [enqueueAll]
  | cons x rest ih =>
      intro q hq
      by_cases hlen : q.length < cap
      · have hsucc : cap - q.length = (cap - (q ++ [x]).length) + 1 := by
          simp only [List.length_append, List.length_cons, List.length_nil]
          omega
        rw [enqueueAll]
        simp only [putNowait, if_pos hlen]
        rw [ih (q ++ [x]) (by simp; omega)]
        rw [hsucc, List.take_succ_cons, List.append_assoc]
        simp only [List.singleton_append, List.length_append,
          List.length_cons, List.length_nil, Prod.mk.injEq]
        norm_num
        omega
      · have hfull : q.length = cap := by omega
        rw [enqueueAll]
        simp only [putNowait, if_neg hlen]
        rw [enqueueAll_full cap q hfull rest]
        have h0 : cap - q.length = 0 := by omega
        simp [h0]
        omega

/-- Counterexample to claim C2 as stated: enqueueing the 25 chunks
`0, 1, …, 24` into the empty capacity-20 queue with no consumer does emit
exactly 5 drop signals, but the retained chunks are `0, …, 19` — not the
most recent 20 (`5, …, 24`); the policy is drop-newest. -/
theorem C2_counterexample :
    (enqueueAll 20 ([] : List ℕ) (List.range 25)).2 = 5 ∧
    (enqueueAll 20 ([] : List ℕ) (List.range 25)).1 ≠
      (List.range 25).drop 5 := by decide

/-- Claim C2 (amended): every sequence of 25 chunk enqueue attempts into
the empty bounded channel of capacity 20 with no consumer draining emits
exactly 5 drop signals, and the 20 retained chunks are the **first** 20
in arrival order (drop-newest policy). -/
theorem C2_queue_drop (xs : List α) (h : xs.length = 25) :
    enqueueAll 20 ([] : List α) xs = (xs.take 20, 5) := by
  rw [enqueueAll_eq 20 xs [] (by simp)]
  simp [h]

/-- Witness for the amended C2 on the chunks `0, …, 24`. -/
theorem C2_queue_drop_witness :
    enqueueAll 20 ([] : List ℕ) (List.range 25) =
      ((List.range 25).take 20, 5) :=
  C2_queue_drop (List.range 25) (by simp)

/-- Claim C6: a confirmed pulse within `merge_gap_seconds` of the open
segment extends it (no event emitted); a pulse beyond the gap finalizes
the old segment and opens a fresh one; a pulse with no open segment opens
one. With `merge_gap_seconds = 2`, pulses at 0 and 1.5 leave one segment
whose eventual event spans [0, 1.5], while pulses at 0 and 3 produce two
separate events. -/
theorem C6_segmenter (cfg : AppConfig) (c1 c2 : ℚ)
    (hgap : cfg.merge_gap_seconds = 2) :
    (∀ (seg : OpenSegment) (ts c : ℚ),
      ts - seg.last_detection ≤ cfg.merge_gap_seconds →
      registerDetection cfg (some seg) ts c =
        (some ⟨seg.start, ts, seg.confidences ++ [c]⟩, none)) ∧
    (∀ (seg : OpenSegment) (ts c : ℚ),
      ts - seg.last_detection > cfg.merge_gap_seconds →
      registerDetection cfg (some seg) ts c =
        (some ⟨ts, ts, [c]⟩, some (finalizeSegment cfg seg))) ∧
    (∀ ts c : ℚ, registerDetection cfg none ts c =
      (some ⟨ts, ts, [c]⟩, none)) ∧
    (registerDetection cfg (registerDetection cfg none 0 c1).1 (3/2) c2 =
      (some ⟨0, 3/2, [c1, c2]⟩, none) ∧
      (finalizeSegment cfg ⟨0, 3/2, [c1, c2]⟩).start_ts = 0 ∧
      (finalizeSegment cfg ⟨0, 3/2, [c1, c2]⟩).end_ts = 3/2) ∧
    (registerDetection cfg (registerDetection cfg none 0 c1).1 3 c2 =
      (some ⟨3, 3, [c2]⟩, some (finalizeSegment cfg ⟨0, 0, [c1]⟩))) := by
  refine ⟨fun seg ts c h => ?_, fun seg ts c h => ?_, fun ts c => rfl,
    ⟨?_, rfl, rfl⟩, ?_⟩
  · simp [registerDetection, h]
  · simp [registerDetection, not_le.mpr h]
  · show registerDetection cfg (some ⟨0, 0, [c1]⟩) (3/2) c2 = _
    rw [registerDetection]
    simp [hgap]
    norm_num
  · show registerDetection cfg (some ⟨0, 0, [c1]⟩) 3 c2 = _
    rw [registerDetection]
    simp [hgap]
    norm_num

/-- Witness for C6 at the default configuration with pulse confidences
0.8 and 0.9, exercising the extend, split and fresh-open cases. -/
theorem C6_segmenter_witness :
    registerDetection DEFAULT_CONFIG (some ⟨0, 0, [8/10]⟩) 1 (9/10) =
      (some ⟨0, 1, [8/10, 9/10]⟩, none) ∧
    registerDetection DEFAULT_CONFIG none 0 (8/10) =
      (some ⟨0, 0, [8/10]⟩, none) ∧
    registerDetection DEFAULT_CONFIG
      (registerDetection DEFAULT_CONFIG none 0 (8/10)).1 (3/2) (9/10) =
      (some ⟨0, 3/2, [8/10, 9/10]⟩, none) ∧
    registerDetection DEFAULT_CONFIG
      (registerDetection DEFAULT_CONFIG none 0 (8/10)).1 3 (9/10) =
      (some ⟨3, 3, [9/10]⟩,
        some (finalizeSegment DEFAULT_CONFIG ⟨0, 0, [8/10]⟩)) := by
  have h := C6_segmenter DEFAULT_CONFIG (8/10) (9/10) rfl
  exact ⟨h.1 ⟨0, 0, [8/10]⟩ 1 (9/10) (by norm_num [DEFAULT_CONFIG]),
    h.2.2.1 0 (8/10), h.2.2.2.1.1, h.2.2.2.2⟩

/-- Claim C7: finalizing an open segment with `last_detection ≥ start` and
at least one recorded confidence yields an event with `end_ts ≥ start_ts`,
`duration_sec = max(last_detection − start, window_seconds)` (hence
`≥ window_seconds`), and `avg_confidence` equal to the arithmetic mean of
the confidences; the open segment is cleared. -/
theorem C7_finalize_invariants (cfg : AppConfig) (seg : OpenSegment)
    (hord : seg.start ≤ seg.last_detection)
    (hconf : seg.confidences ≠ []) :
    (finalizeActive cfg (some seg)).1 = none ∧
    (finalizeActive cfg (some seg)).2 = some (finalizeSegment cfg seg) ∧
    (finalizeSegment cfg seg).end_ts ≥ (finalizeSegment cfg seg).start_ts ∧
    (finalizeSegment cfg seg).duration_sec =
      max (seg.last_detection - seg.start) cfg.window_seconds ∧
    (finalizeSegment cfg seg).duration_sec ≥ cfg.window_seconds ∧
    (finalizeSegment cfg seg).avg_confidence * seg.confidences.length =
      seg.confidences.sum ∧
    (finalizeActiveThunder cfg (some seg)).1 = none ∧
    (finalizeThunderSegment cfg seg).duration_sec ≥ cfg.window_seconds := by
  have hlen : (seg.confidences.length : ℚ) ≠ 0 :=
    Nat.cast_ne_zero.mpr (List.length_pos.mpr hconf).ne'
  refine ⟨rfl, rfl, hord, rfl, le_max_right _ _, ?_, rfl, le_max_right _ _⟩
  simp [finalizeSegment, div_mul_cancel₀ _ hlen]

/-- Witness for C7 on the segment `{start 0, last_detection 3,
confidences [1/2, 1]}` with the default configuration. -/
theorem C7_finalize_invariants_witness :
    (finalizeActive DEFAULT_CONFIG (some ⟨0, 3, [1/2, 1]⟩)).1 = none ∧
    (finalizeActive DEFAULT_CONFIG (some ⟨0, 3, [1/2, 1]⟩)).2 =
      some (finalizeSegment DEFAULT_CONFIG ⟨0, 3, [1/2, 1]⟩) ∧
    (finalizeSegment DEFAULT_CONFIG ⟨0, 3, [1/2, 1]⟩).end_ts ≥
      (finalizeSegment DEFAULT_CONFIG ⟨0, 3, [1/2, 1]⟩).start_ts ∧
    (finalizeSegment DEFAULT_CONFIG ⟨0, 3, [1/2, 1]⟩).duration_sec =
      max ((3 : ℚ) - 0) DEFAULT_CONFIG.window_seconds ∧
    (finalizeSegment DEFAULT_CONFIG ⟨0, 3, [1/2, 1]⟩).duration_sec ≥
      DEFAULT_CONFIG.window_seconds ∧
    (finalizeSegment DEFAULT_CONFIG ⟨0, 3, [1/2, 1]⟩).avg_confidence *
      ([(1 : ℚ)/2, 1] : List ℚ).length = ([(1 : ℚ)/2, 1] : List ℚ).sum ∧
    (finalizeActiveThunder DEFAULT_CONFIG (some ⟨0, 3, [1/2, 1]⟩)).1 =
      none ∧
    (finalizeThunderSegment DEFAULT_CONFIG ⟨0, 3, [1/2, 1]⟩).duration_sec ≥
      DEFAULT_CONFIG.window_seconds :=
  C7_finalize_invariants DEFAULT_CONFIG ⟨0, 3, [1/2, 1]⟩ (by norm_num)
    (by simp)

/-- Claim C8: `stop` finalizes every monitored class's open segment
unconditionally — the flush takes no account of the current time or the
merge gap — leaving no open segment for either class, and emitting the
finalized event of every segment that was open. -/
theorem C8_stop_flush (cfg : AppConfig) (s : EngineSegments) :
    (stopFlush cfg s).1.bark = none ∧
    (stopFlush cfg s).1.thunder = none ∧
    (∀ seg, s.bark = some seg →
      (stopFlush cfg s).2.1 = some (finalizeSegment cfg seg)) ∧
    (∀ seg, s.thunder = some seg →
      (stopFlush cfg s).2.2 = some (finalizeThunderSegment cfg seg)) := by
  cases hb : s.bark <;> cases ht : s.thunder <;>
    simp [stopFlush, finalizeActive, finalizeActiveThunder, hb, ht]

/-- Witness for C8: a bark segment last detected at `t0 = 1` and a thunder
segment last detected at `2` are both flushed by `stop` (called half a
second later in the claim's example — the flush has no time argument at
all), leaving no open segment. -/
theorem C8_stop_flush_witness :
    (stopFlush DEFAULT_CONFIG ⟨some ⟨1, 1, [1]⟩, some ⟨0, 2, [1/2]⟩⟩).1.bark
      = none ∧
    (stopFlush DEFAULT_CONFIG
      ⟨some ⟨1, 1, [1]⟩, some ⟨0, 2, [1/2]⟩⟩).1.thunder = none ∧
    (stopFlush DEFAULT_CONFIG ⟨some ⟨1, 1, [1]⟩, some ⟨0, 2, [1/2]⟩⟩).2.1 =
      some (finalizeSegment DEFAULT_CONFIG ⟨1, 1, [1]⟩) ∧
    (stopFlush DEFAULT_CONFIG ⟨some ⟨1, 1, [1]⟩, some ⟨0, 2, [1/2]⟩⟩).2.2 =
      some (finalizeThunderSegment DEFAULT_CONFIG ⟨0, 2, [1/2]⟩) :=
  ⟨(C8_stop_flush DEFAULT_CONFIG _).1,
   (C8_stop_flush DEFAULT_CONFIG _).2.1,
   (C8_stop_flush DEFAULT_CONFIG _).2.2.1 _ rfl,
   (C8_stop_flush DEFAULT_CONFIG _).2.2.2 _ rfl⟩

end BarkingMonitor
